import Mathlib

/-!
Shallow embedding of `sync_prim::upgrade_mutex`
(src/include/sync_prim/upgrade_mutex.hpp).

The mutex state is a single 32-bit word (`std::atomic<uint32_t> state_`):
  bit 31 : exclusive write lock held        (WRITE_LOCKED_FLAG)
  bit 30 : upgradeable lock held            (UPGRADE_LOCKED_FLAG)
  bit 29 : upgrade-to-exclusive pending     (UPGRADE_PENDING_FLAG)
  bits 0-28 : count of shared readers      (READER_COUNT_MASK)

We model the word as a `Nat` kept below `2^32`; `uint32_t` subtraction
(`fetch_sub`) is modelled with explicit two's-complement wraparound.
Each operation of the C++ class is translated into:
  - its wait predicate (the lambda passed to `condition_variable::wait`),
  - the state word it CASes/stores on success,
  - the notifications it emits (`gate1_.notify_all`, `gate2_.notify_one`).
-/

namespace upgrade_mutex

-- static constexpr uint32_t WRITE_LOCKED_FLAG = 1u << 31;
def WRITE_LOCKED_FLAG : Nat := 1 <<< 31

-- static constexpr uint32_t UPGRADE_LOCKED_FLAG = 1u << 30;
def UPGRADE_LOCKED_FLAG : Nat := 1 <<< 30

-- static constexpr uint32_t UPGRADE_PENDING_FLAG = 1u << 29;
def UPGRADE_PENDING_FLAG : Nat := 1 <<< 29

-- static constexpr uint32_t READER_COUNT_MASK =
--   ~(WRITE_LOCKED_FLAG | UPGRADE_LOCKED_FLAG | UPGRADE_PENDING_FLAG);
-- (bitwise complement within uint32_t)
def READER_COUNT_MASK : Nat :=
  (2 ^ 32 - 1) ^^^ (WRITE_LOCKED_FLAG ||| UPGRADE_LOCKED_FLAG ||| UPGRADE_PENDING_FLAG)

-- static constexpr uint32_t ONE_READER = 1u;
def ONE_READER : Nat := 1

/-- `uint32_t` subtraction with two's-complement wraparound (`fetch_sub`). -/
def wsub (s v : Nat) : Nat := (s + 2 ^ 32 - v) % 2 ^ 32

/-- Observation: the READERS field (bits 0-28) of a state word. -/
def readersOf (s : Nat) : Nat := s % 2 ^ 29

/-- Observation: the PENDING flag (bit 29) of a state word. -/
def pendingOf (s : Nat) : Prop := s / 2 ^ 29 % 2 = 1

/-- Observation: the UPGRADER flag (bit 30) of a state word. -/
def upgraderOf (s : Nat) : Prop := s / 2 ^ 30 % 2 = 1

/-- Observation: the WRITER flag (bit 31) of a state word. -/
def writerOf (s : Nat) : Prop := s / 2 ^ 31 % 2 = 1

instance (s : Nat) : Decidable (pendingOf s) := by unfold pendingOf; infer_instance

instance (s : Nat) : Decidable (upgraderOf s) := by unfold upgraderOf; infer_instance

instance (s : Nat) : Decidable (writerOf s) := by unfold writerOf; infer_instance

/-- Result of one state mutation together with the notifications it emits:
`gate1All` models `gate1_.notify_all()`, `gate2One` models `gate2_.notify_one()`. -/
structure StepOut where
  state : Nat
  gate1All : Bool
  gate2One : Bool
  deriving DecidableEq, Repr

/-! ### Acquisition predicates and their successful-CAS results

Each blocking acquirer is `gateN_.wait(internal_lock, pred)`; the CAS is part
of `pred`, so the wait ends exactly when the predicate's CAS succeeds.  In the
single-step (uncontended CAS) semantics the predicate decides success and the
`newState` function gives the stored word. -/

-- lock(): wait on gate2 until state == 0, then CAS 0 -> WRITE_LOCKED_FLAG.
def lock_pred (s : Nat) : Bool := s == 0

def lock_newState : Nat := WRITE_LOCKED_FLAG

-- lock_shared(): wait on gate1 until neither WRITE_LOCKED_FLAG nor
-- UPGRADE_PENDING_FLAG is set, then CAS s -> s + ONE_READER.
def lock_shared_pred (s : Nat) : Bool :=
  (s &&& WRITE_LOCKED_FLAG == 0) && (s &&& UPGRADE_PENDING_FLAG == 0)

def lock_shared_newState (s : Nat) : Nat := (s + ONE_READER) % 2 ^ 32

/-- One evaluation of the `lock_shared` wait-predicate body: mutates the word
iff the predicate's guard passes (the CAS succeeds), else leaves it unchanged. -/
def lock_shared_attempt (s : Nat) : Nat :=
  if lock_shared_pred s then lock_shared_newState s else s

-- lock_upgrade(): wait on gate1 until neither WRITE_LOCKED_FLAG nor
-- UPGRADE_LOCKED_FLAG is set, then CAS s -> s | UPGRADE_LOCKED_FLAG.
def lock_upgrade_pred (s : Nat) : Bool :=
  (s &&& WRITE_LOCKED_FLAG == 0) && (s &&& UPGRADE_LOCKED_FLAG == 0)

def lock_upgrade_newState (s : Nat) : Nat := s ||| UPGRADE_LOCKED_FLAG

/-! ### Release operations (single atomic fetch_sub + notifications) -/

-- unlock(): fetch_sub(WRITE_LOCKED_FLAG); gate2_.notify_one(); gate1_.notify_all().
def unlock (s : Nat) : StepOut :=
  { state := wsub s WRITE_LOCKED_FLAG
    gate1All := true
    gate2One := true }

-- unlock_shared(): old = fetch_sub(ONE_READER);
-- if ((old & READER_COUNT_MASK) == ONE_READER && (old & UPGRADE_LOCKED_FLAG) == 0)
--   gate2_.notify_one();
def unlock_shared (s : Nat) : StepOut :=
  { state := wsub s ONE_READER
    gate1All := false
    gate2One := (s &&& READER_COUNT_MASK == ONE_READER) && (s &&& UPGRADE_LOCKED_FLAG == 0) }

-- unlock_upgrade(): old = fetch_sub(UPGRADE_LOCKED_FLAG);
-- if ((old & READER_COUNT_MASK) == 0) gate2_.notify_one(); gate1_.notify_all().
def unlock_upgrade (s : Nat) : StepOut :=
  { state := wsub s UPGRADE_LOCKED_FLAG
    gate1All := true
    gate2One := (s &&& READER_COUNT_MASK == 0) }

/-! ### Atomic transitions -/

-- upgrade_to_unique(), step 1: state_.fetch_or(UPGRADE_PENDING_FLAG).
def upgrade_to_unique_setPending (s : Nat) : Nat := s ||| UPGRADE_PENDING_FLAG

-- upgrade_to_unique(), step 2: gate2_.wait until (state_ & READER_COUNT_MASK) == 0.
def upgrade_to_unique_waitPred (s : Nat) : Bool := s &&& READER_COUNT_MASK == 0

-- upgrade_to_unique(), step 3: state_.store(WRITE_LOCKED_FLAG); no notification.
-- `upgrade_to_unique` is the whole call, modelled at drain completion: the word
-- passed through `upgrade_to_unique_setPending s` and ends at WRITE_LOCKED_FLAG.
def upgrade_to_unique (_s : Nat) : StepOut :=
  { state := WRITE_LOCKED_FLAG
    gate1All := false
    gate2One := false }

-- unique_to_upgrade(): state_.store(UPGRADE_LOCKED_FLAG); gate1_.notify_all().
def unique_to_upgrade (_s : Nat) : StepOut :=
  { state := UPGRADE_LOCKED_FLAG
    gate1All := true
    gate2One := false }

-- unique_to_shared(): state_.store(ONE_READER); gate1_.notify_all().
def unique_to_shared (_s : Nat) : StepOut :=
  { state := ONE_READER
    gate1All := true
    gate2One := false }

-- scoped_upgrade_entry() { upgrade_to_unique(); }
def scoped_upgrade_entry : Nat → StepOut := upgrade_to_unique

-- scoped_upgrade_exit() { unique_to_upgrade(); }
def scoped_upgrade_exit : Nat → StepOut := unique_to_upgrade

/-! ### Transition system on the state word

One step per state-word mutation of the source, guarded by the mutation's own
CAS/wait predicate plus the ownership precondition under which the caller may
invoke it (spec §3 "Ownership and lifecycle", §6 "Callable contracts"):
releases require the caller to hold the corresponding mode;
`unlock_upgrade` is never invoked mid-upgrade because the PENDING bit is owned
by the upgrader that set it, which is blocked inside `upgrade_to_unique` until
the final store clears it; `lock_shared` callers respect the 29-bit reader
ceiling (spec invariant 5: exceeding it is undefined). -/

inductive Step : Nat → Nat → Prop where
  | do_lock (s : Nat) (h : lock_pred s = true) :
      Step s lock_newState
  | do_unlock (s : Nat) (h : writerOf s) :
      Step s (unlock s).state
  | do_lock_shared (s : Nat) (h : lock_shared_pred s = true)
      (hceil : readersOf s < 2 ^ 29 - 1) :
      Step s (lock_shared_newState s)
  | do_unlock_shared (s : Nat) (h : 1 ≤ readersOf s) :
      Step s (unlock_shared s).state
  | do_lock_upgrade (s : Nat) (h : lock_upgrade_pred s = true) :
      Step s (lock_upgrade_newState s)
  | do_unlock_upgrade (s : Nat) (h : upgraderOf s) (hnp : ¬ pendingOf s) :
      Step s (unlock_upgrade s).state
  | do_upgrade_pend (s : Nat) (h : upgraderOf s) (hw : ¬ writerOf s)
      (hnp : ¬ pendingOf s) :
      Step s (upgrade_to_unique_setPending s)
  | do_upgrade_complete (s : Nat) (h : pendingOf s)
      (hdrain : upgrade_to_unique_waitPred s = true) :
      Step s (upgrade_to_unique s).state
  | do_unique_to_upgrade (s : Nat) (h : writerOf s) :
      Step s (unique_to_upgrade s).state
  | do_unique_to_shared (s : Nat) (h : writerOf s) :
      Step s (unique_to_shared s).state

/-- States reachable from the all-zero initial word
(`upgrade_mutex() : state_(0)`). -/
inductive Reachable : Nat → Prop where
  | init : Reachable 0
  | step {s t : Nat} (hr : Reachable s) (hs : Step s t) : Reachable t

/-- Spec invariants P1 and P2 on a state word. -/
def StateInv (s : Nat) : Prop :=
  (writerOf s → ¬ upgraderOf s ∧ ¬ pendingOf s ∧ readersOf s = 0) ∧
  (pendingOf s → upgraderOf s)

instance (s : Nat) : Decidable (StateInv s) := by unfold StateInv; infer_instance

/-! ### Lock guards (upgrade_mutex.hpp, `lock_guard_base` and friends)

A guard's only mutex-relevant datum is its mutex pointer `p_mutex_`
(`Option Nat`: `none` models `nullptr`, `some i` a pointer to mutex `i`).
Destructors and the scoped-upgrade entry/exit are modelled by the list of
mutex operations they invoke. -/

inductive MutexOp where
  | lockOp | unlockOp | lockSharedOp | unlockSharedOp
  | lockUpgradeOp | unlockUpgradeOp
  | upgradeToUniqueOp | uniqueToUpgradeOp | uniqueToSharedOp
  deriving DecidableEq, Repr

structure lock_guard_base where
  p_mutex_ : Option Nat
  deriving DecidableEq, Repr

-- bool owns_lock() const noexcept { return p_mutex_ != nullptr; }
def owns_lock (g : lock_guard_base) : Bool := g.p_mutex_.isSome

-- void release() noexcept { p_mutex_ = nullptr; }
def release_guard (g : lock_guard_base) : lock_guard_base := { g with p_mutex_ := none }

-- lock_guard_base() noexcept : p_mutex_(nullptr) {}
def default_guard : lock_guard_base := { p_mutex_ := none }

-- lock_guard_base(lock_guard_base &&other) : p_mutex_(other.p_mutex_)
-- { other.p_mutex_ = nullptr; }
-- Returns (the newly constructed guard, `other` after the move).
def move_construct (other : lock_guard_base) : lock_guard_base × lock_guard_base :=
  ({ p_mutex_ := other.p_mutex_ }, { other with p_mutex_ := none })

-- ~unique_lock() { if (p_mutex_) p_mutex_->unlock(); }
def unique_lock_dtor (g : lock_guard_base) : List MutexOp :=
  match g.p_mutex_ with
  | some _ => [MutexOp.unlockOp]
  | none => []

-- ~shared_lock() { if (p_mutex_) p_mutex_->unlock_shared(); }
def shared_lock_dtor (g : lock_guard_base) : List MutexOp :=
  match g.p_mutex_ with
  | some _ => [MutexOp.unlockSharedOp]
  | none => []

-- ~upgrade_lock() { if (p_mutex_) p_mutex_->unlock_upgrade(); }
def upgrade_lock_dtor (g : lock_guard_base) : List MutexOp :=
  match g.p_mutex_ with
  | some _ => [MutexOp.unlockUpgradeOp]
  | none => []

-- scoped_upgrade(upgrade_lock &lock) : p_mutex_(lock.mutex())
-- { if (p_mutex_) p_mutex_->scoped_upgrade_entry(); }
-- scoped_upgrade_entry() calls upgrade_to_unique().
def scoped_upgrade_ctor_ops (g : lock_guard_base) : List MutexOp :=
  match g.p_mutex_ with
  | some _ => [MutexOp.upgradeToUniqueOp]
  | none => []

-- ~scoped_upgrade() { if (p_mutex_) p_mutex_->scoped_upgrade_exit(); }
-- scoped_upgrade_exit() calls unique_to_upgrade().
def scoped_upgrade_dtor_ops (g : lock_guard_base) : List MutexOp :=
  match g.p_mutex_ with
  | some _ => [MutexOp.uniqueToUpgradeOp]
  | none => []

/-! ## Lemmas and theorems -/

lemma WRITE_LOCKED_FLAG_eq : WRITE_LOCKED_FLAG = 2 ^ 31 := by decide

lemma UPGRADE_LOCKED_FLAG_eq : UPGRADE_LOCKED_FLAG = 2 ^ 30 := by decide

lemma UPGRADE_PENDING_FLAG_eq : UPGRADE_PENDING_FLAG = 2 ^ 29 := by decide

lemma READER_COUNT_MASK_eq : READER_COUNT_MASK = 2 ^ 29 - 1 := by decide

/-- `x & (1 << k)` extracts bit `k`, in div/mod form. -/
lemma land_two_pow_div_mod (s k : Nat) : s &&& 2 ^ k = s / 2 ^ k % 2 * 2 ^ k := by
  rw [Nat.and_two_pow, Nat.testBit_to_div_mod]
  by_cases h : s / 2 ^ k % 2 = 1
  · simp [h]
  · have h0 : s / 2 ^ k % 2 = 0 := by omega
    simp [h0]

/-- `x & READER_COUNT_MASK` is the reader count, in mod form. -/
lemma land_mask_eq_mod (s : Nat) : s &&& READER_COUNT_MASK = s % 2 ^ 29 := by
  rw [READER_COUNT_MASK_eq, Nat.and_pow_two_sub_one_eq_mod]

/-- Setting a clear bit with `|` is the same as adding it. -/
lemma lor_two_pow_of_bit_clear (s k : Nat) (h : s / 2 ^ k % 2 = 0) :
    s ||| 2 ^ k = s + 2 ^ k := by
  have hk : (0:Nat) < 2 ^ k := Nat.pos_pow_of_pos k (by omega)
  have hm : s % (2 ^ k * 2) / 2 ^ k = s / 2 ^ k % 2 := Nat.mod_mul_right_div_self s (2 ^ k) 2
  have hrlt : s % (2 ^ k * 2) < 2 ^ k := (Nat.div_eq_zero_iff hk).mp (by omega)
  have hsk : (2:Nat) ^ (k + 1) = 2 ^ k * 2 := by rw [Nat.pow_succ]
  obtain ⟨q, r, hr, rfl⟩ : ∃ q r, r < 2 ^ k ∧ s = 2 ^ (k + 1) * q + r :=
    ⟨s / 2 ^ (k + 1), s % 2 ^ (k + 1), by rw [hsk]; exact hrlt,
      (Nat.div_add_mod s (2 ^ (k + 1))).symm⟩
  have h1 : r < 2 ^ (k + 1) := by rw [hsk]; omega
  have h2 : 2 ^ k + r < 2 ^ (k + 1) := by rw [hsk]; omega
  calc 2 ^ (k + 1) * q + r ||| 2 ^ k
      = (2 ^ (k + 1) * q ||| r) ||| 2 ^ k := by
        rw [← Nat.mul_add_lt_is_or h1 q]
    _ = 2 ^ (k + 1) * q ||| (r ||| 2 ^ k) := Nat.or_assoc _ _ _
    _ = 2 ^ (k + 1) * q ||| (2 ^ k + r) := by
        rw [Nat.or_comm r]
        congr 1
        have := Nat.mul_add_lt_is_or hr 1
        simpa using this.symm
    _ = 2 ^ (k + 1) * q + (2 ^ k + r) := (Nat.mul_add_lt_is_or h2 q).symm
    _ = 2 ^ (k + 1) * q + r + 2 ^ k := by omega

/-- Every step keeps the word inside 32 bits and preserves invariants P1/P2. -/
lemma step_preserves (s t : Nat) (hst : Step s t) (hs : s < 2 ^ 32)
    (hinv : StateInv s) : t < 2 ^ 32 ∧ StateInv t := by
  cases hst with
  | do_lock h =>
      exact ⟨by decide, by decide⟩
  | do_unlock h =>
      unfold writerOf at h
      unfold StateInv writerOf upgraderOf pendingOf readersOf at hinv ⊢
      simp only [unlock, wsub, WRITE_LOCKED_FLAG_eq]
      omega
  | do_lock_shared h hceil =>
      unfold lock_shared_pred at h
      rw [WRITE_LOCKED_FLAG_eq, UPGRADE_PENDING_FLAG_eq,
        land_two_pow_div_mod, land_two_pow_div_mod] at h
      simp only [Bool.and_eq_true, beq_iff_eq] at h
      unfold readersOf at hceil
      unfold StateInv writerOf upgraderOf pendingOf readersOf at hinv ⊢
      simp only [lock_shared_newState, ONE_READER]
      omega
  | do_unlock_shared h =>
      unfold readersOf at h
      unfold StateInv writerOf upgraderOf pendingOf readersOf at hinv ⊢
      simp only [unlock_shared, wsub, ONE_READER]
      omega
  | do_lock_upgrade h =>
      unfold lock_upgrade_pred at h
      rw [WRITE_LOCKED_FLAG_eq, UPGRADE_LOCKED_FLAG_eq,
        land_two_pow_div_mod, land_two_pow_div_mod] at h
      simp only [Bool.and_eq_true, beq_iff_eq] at h
      rw [lock_upgrade_newState, UPGRADE_LOCKED_FLAG_eq,
        lor_two_pow_of_bit_clear s 30 (by omega)]
      unfold StateInv writerOf upgraderOf pendingOf readersOf at hinv ⊢
      omega
  | do_unlock_upgrade h hnp =>
      unfold upgraderOf at h
      unfold pendingOf at hnp
      unfold StateInv writerOf upgraderOf pendingOf readersOf at hinv ⊢
      simp only [unlock_upgrade, wsub, UPGRADE_LOCKED_FLAG_eq]
      omega
  | do_upgrade_pend h hw hnp =>
      unfold upgraderOf at h
      unfold writerOf at hw
      unfold pendingOf at hnp
      rw [upgrade_to_unique_setPending, UPGRADE_PENDING_FLAG_eq,
        lor_two_pow_of_bit_clear s 29 (by omega)]
      unfold StateInv writerOf upgraderOf pendingOf readersOf at hinv ⊢
      omega
  | do_upgrade_complete h hdrain =>
      exact ⟨by simp only [upgrade_to_unique]; decide, by simp only [upgrade_to_unique]; decide⟩
  | do_unique_to_upgrade h =>
      exact ⟨by simp only [unique_to_upgrade]; decide, by simp only [unique_to_upgrade]; decide⟩
  | do_unique_to_shared h =>
      exact ⟨by simp only [unique_to_shared]; decide, by simp only [unique_to_shared]; decide⟩

/-- Reachable words stay inside 32 bits and satisfy the invariants. -/
lemma reachable_bound_inv (s : Nat) (h : Reachable s) : s < 2 ^ 32 ∧ StateInv s := by
  induction h with
  | init => exact ⟨by decide, by decide⟩
  | step hr hst ih => exact step_preserves _ _ hst ih.1 ih.2

/-! ## Claim theorems -/

/-- C1: the claim says `unlock_shared` notifies `gate2` both when the pre-state
had READERS = 1 ∧ UPGRADER = 0 and when UPGRADER = 1 and the decrement brings
READERS to zero.  At the concrete drain pre-state
`UPGRADE_LOCKED_FLAG + UPGRADE_PENDING_FLAG + 1` (UPGRADER = 1, PENDING = 1,
READERS = 1) the decrement does bring READERS to zero, yet the source's
condition `(old & READER_COUNT_MASK) == ONE_READER && (old & UPGRADE_LOCKED_FLAG) == 0`
is false, so no `gate2` notification is emitted. -/
theorem C1_unlock_shared_drain_no_gate2_notify :
    readersOf (UPGRADE_LOCKED_FLAG + UPGRADE_PENDING_FLAG + 1) = 1 ∧
    upgraderOf (UPGRADE_LOCKED_FLAG + UPGRADE_PENDING_FLAG + 1) ∧
    readersOf (unlock_shared (UPGRADE_LOCKED_FLAG + UPGRADE_PENDING_FLAG + 1)).state = 0 ∧
    (unlock_shared (UPGRADE_LOCKED_FLAG + UPGRADE_PENDING_FLAG + 1)).gate2One = false := by
  decide

/-- C2: with an upgrader draining (state UPGRADER + PENDING + one reader), a new
shared acquirer's predicate is false (it blocks, as claimed), but when the last
pre-existing reader runs `unlock_shared` the resulting word satisfies the
upgrader's `gate2` wait predicate while the release emits no notification on
either gate — the upgrader blocked inside `upgrade_to_unique` is never woken,
contradicting the claim that it is eventually unblocked. -/
theorem C2_upgrade_drain_lost_wakeup :
    lock_shared_pred (UPGRADE_LOCKED_FLAG + UPGRADE_PENDING_FLAG + 1) = false ∧
    (unlock_shared (UPGRADE_LOCKED_FLAG + UPGRADE_PENDING_FLAG + 1)).state
      = UPGRADE_LOCKED_FLAG + UPGRADE_PENDING_FLAG ∧
    upgrade_to_unique_waitPred
      (unlock_shared (UPGRADE_LOCKED_FLAG + UPGRADE_PENDING_FLAG + 1)).state = true ∧
    (unlock_shared (UPGRADE_LOCKED_FLAG + UPGRADE_PENDING_FLAG + 1)).gate2One = false ∧
    (unlock_shared (UPGRADE_LOCKED_FLAG + UPGRADE_PENDING_FLAG + 1)).gate1All = false := by
  decide

/-- C3: every state word reachable from the all-zero initial state by the nine
operations, invoked under their ownership preconditions, satisfies
P1 (WRITER ⇒ ¬UPGRADER ∧ ¬PENDING ∧ READERS = 0) and P2 (PENDING ⇒ UPGRADER). -/
theorem C3_reachable_states_satisfy_invariants (s : Nat) (h : Reachable s) :
    (writerOf s → ¬ upgraderOf s ∧ ¬ pendingOf s ∧ readersOf s = 0) ∧
    (pendingOf s → upgraderOf s) :=
  (reachable_bound_inv s h).2

/-- Witness for C3 at the reachable state obtained by one `lock_upgrade` from 0. -/
theorem C3_witness :
    (writerOf (lock_upgrade_newState 0) →
      ¬ upgraderOf (lock_upgrade_newState 0) ∧ ¬ pendingOf (lock_upgrade_newState 0) ∧
      readersOf (lock_upgrade_newState 0) = 0) ∧
    (pendingOf (lock_upgrade_newState 0) → upgraderOf (lock_upgrade_newState 0)) :=
  C3_reachable_states_satisfy_invariants (lock_upgrade_newState 0)
    (Reachable.step Reachable.init (Step.do_lock_upgrade 0 (by decide)))

/-- C4: the `lock` acquisition predicate succeeds exactly on the all-zero word,
equivalently exactly when every field is zero; with only the UPGRADER bit set
it returns false; on success the CAS stores the word with only WRITER set. -/
theorem C4_lock_waits_for_zero_word (s : Nat) (hs : s < 2 ^ 32) :
    (lock_pred s = true ↔ s = 0) ∧
    (lock_pred s = true ↔
      ¬ writerOf s ∧ ¬ upgraderOf s ∧ ¬ pendingOf s ∧ readersOf s = 0) ∧
    (upgraderOf s → lock_pred s = false) ∧
    (writerOf lock_newState ∧ ¬ upgraderOf lock_newState ∧
      ¬ pendingOf lock_newState ∧ readersOf lock_newState = 0) := by
  refine ⟨by simp [lock_pred], ?_, ?_, by decide⟩
  · unfold lock_pred writerOf upgraderOf pendingOf readersOf
    simp only [beq_iff_eq]
    omega
  · intro hu
    unfold upgraderOf at hu
    unfold lock_pred
    simp only [beq_eq_false_iff_ne, ne_eq]
    omega

/-- Witness for C4 at the word with only the UPGRADER bit set. -/
theorem C4_witness :
    (lock_pred UPGRADE_LOCKED_FLAG = true ↔ UPGRADE_LOCKED_FLAG = 0) ∧
    (lock_pred UPGRADE_LOCKED_FLAG = true ↔
      ¬ writerOf UPGRADE_LOCKED_FLAG ∧ ¬ upgraderOf UPGRADE_LOCKED_FLAG ∧
      ¬ pendingOf UPGRADE_LOCKED_FLAG ∧ readersOf UPGRADE_LOCKED_FLAG = 0) ∧
    (upgraderOf UPGRADE_LOCKED_FLAG → lock_pred UPGRADE_LOCKED_FLAG = false) ∧
    (writerOf lock_newState ∧ ¬ upgraderOf lock_newState ∧
      ¬ pendingOf lock_newState ∧ readersOf lock_newState = 0) :=
  C4_lock_waits_for_zero_word UPGRADE_LOCKED_FLAG (by decide)

/-- C5: one evaluation of the `lock_shared` wait-predicate body increments
READERS by one exactly when neither WRITER nor PENDING is set (leaving the flag
fields unchanged) and leaves the word unchanged otherwise; in particular it
succeeds when the UPGRADER bit is set.  The hypothesis `readersOf s < 2^29 - 1`
is the reader-count ceiling the spec imposes on callers (spec invariant 5). -/
theorem C5_lock_shared_increments_iff_no_writer_no_pending (s : Nat)
    (hs : s < 2 ^ 32) (hr : readersOf s < 2 ^ 29 - 1) :
    (lock_shared_pred s = true ↔ ¬ writerOf s ∧ ¬ pendingOf s) ∧
    (¬ writerOf s ∧ ¬ pendingOf s →
      readersOf (lock_shared_attempt s) = readersOf s + 1 ∧
      (writerOf (lock_shared_attempt s) ↔ writerOf s) ∧
      (upgraderOf (lock_shared_attempt s) ↔ upgraderOf s) ∧
      (pendingOf (lock_shared_attempt s) ↔ pendingOf s)) ∧
    (¬ (¬ writerOf s ∧ ¬ pendingOf s) → lock_shared_attempt s = s) ∧
    (upgraderOf s ∧ ¬ writerOf s ∧ ¬ pendingOf s → lock_shared_pred s = true) := by
  have hpred : lock_shared_pred s = true ↔ ¬ writerOf s ∧ ¬ pendingOf s := by
    unfold lock_shared_pred writerOf pendingOf
    rw [WRITE_LOCKED_FLAG_eq, UPGRADE_PENDING_FLAG_eq,
      land_two_pow_div_mod, land_two_pow_div_mod]
    simp only [Bool.and_eq_true, beq_iff_eq]
    omega
  refine ⟨hpred, ?_, ?_, fun h => hpred.mpr ⟨h.2.1, h.2.2⟩⟩
  · intro h
    unfold lock_shared_attempt
    rw [if_pos (hpred.mpr h)]
    unfold readersOf writerOf upgraderOf pendingOf at *
    simp only [lock_shared_newState, ONE_READER]
    omega
  · intro h
    unfold lock_shared_attempt
    rw [if_neg (fun hp => h (hpred.mp hp))]

/-- Witness for C5 at the word with the UPGRADER bit set and five readers. -/
theorem C5_witness :
    readersOf (lock_shared_attempt (UPGRADE_LOCKED_FLAG + 5))
      = readersOf (UPGRADE_LOCKED_FLAG + 5) + 1 :=
  ((C5_lock_shared_increments_iff_no_writer_no_pending (UPGRADE_LOCKED_FLAG + 5)
    (by decide) (by decide)).2.1 ⟨by decide, by decide⟩).1

/-- C6: called by the upgradeable holder (UPGRADER set, WRITER and PENDING
clear), `upgrade_to_unique` first ORs exactly the PENDING bit into the word
(all other fields unchanged), then waits on the predicate that holds exactly
when READERS = 0, then stores exactly the WRITER-only word — clearing UPGRADER
and PENDING simultaneously — and emits no notification on either gate. -/
theorem C6_upgrade_to_unique_shape (s : Nat) (hs : s < 2 ^ 32)
    (hu : upgraderOf s) (hw : ¬ writerOf s) (hp : ¬ pendingOf s) :
    (pendingOf (upgrade_to_unique_setPending s) ∧
      readersOf (upgrade_to_unique_setPending s) = readersOf s ∧
      (upgraderOf (upgrade_to_unique_setPending s) ↔ upgraderOf s) ∧
      (writerOf (upgrade_to_unique_setPending s) ↔ writerOf s)) ∧
    (∀ t, upgrade_to_unique_waitPred t = true ↔ readersOf t = 0) ∧
    ((upgrade_to_unique s).state = WRITE_LOCKED_FLAG ∧
      writerOf (upgrade_to_unique s).state ∧
      ¬ upgraderOf (upgrade_to_unique s).state ∧
      ¬ pendingOf (upgrade_to_unique s).state ∧
      readersOf (upgrade_to_unique s).state = 0 ∧
      (upgrade_to_unique s).gate1All = false ∧
      (upgrade_to_unique s).gate2One = false) := by
  refine ⟨?_, ?_, ?_⟩
  · rw [upgrade_to_unique_setPending, UPGRADE_PENDING_FLAG_eq,
      lor_two_pow_of_bit_clear s 29 (by unfold pendingOf at hp; omega)]
    unfold writerOf upgraderOf pendingOf readersOf at *
    omega
  · intro t
    unfold upgrade_to_unique_waitPred readersOf
    rw [land_mask_eq_mod]
    simp only [beq_iff_eq]
  · refine ⟨rfl, ?_, ?_, ?_, ?_, rfl, rfl⟩ <;>
      · simp only [upgrade_to_unique]
        decide

/-- Witness for C6 at the word with the UPGRADER bit set and three readers. -/
theorem C6_witness :
    pendingOf (upgrade_to_unique_setPending (UPGRADE_LOCKED_FLAG + 3)) ∧
    readersOf (upgrade_to_unique_setPending (UPGRADE_LOCKED_FLAG + 3))
      = readersOf (UPGRADE_LOCKED_FLAG + 3) ∧
    (upgrade_to_unique (UPGRADE_LOCKED_FLAG + 3)).state = WRITE_LOCKED_FLAG :=
  have h := C6_upgrade_to_unique_shape (UPGRADE_LOCKED_FLAG + 3)
    (by decide) (by decide) (by decide) (by decide)
  ⟨h.1.1, h.1.2.1, h.2.2.1⟩

/-- C7: from the all-zero FREE word, `lock_upgrade`; `upgrade_to_unique`;
`unique_to_upgrade`; `unlock_upgrade` returns the word to exactly zero (each
blocking predicate along the way passes immediately). -/
theorem C7_upgrade_roundtrip_returns_to_free :
    lock_upgrade_pred 0 = true ∧
    upgrade_to_unique_waitPred
      (upgrade_to_unique_setPending (lock_upgrade_newState 0)) = true ∧
    (unlock_upgrade
      ((unique_to_upgrade
        ((upgrade_to_unique (lock_upgrade_newState 0)).state)).state)).state = 0 := by
  decide

/-- C8: scoped-upgrade entry is definitionally `upgrade_to_unique` and
scoped-upgrade exit is definitionally `unique_to_upgrade`; entering and then
leaving a scoped upgrade from any word leaves UPGRADER = 1 and WRITER = 0. -/
theorem C8_scoped_upgrade_alias_and_roundtrip (s : Nat) :
    scoped_upgrade_entry = upgrade_to_unique ∧
    scoped_upgrade_exit = unique_to_upgrade ∧
    upgraderOf ((scoped_upgrade_exit ((scoped_upgrade_entry s).state)).state) ∧
    ¬ writerOf ((scoped_upgrade_exit ((scoped_upgrade_entry s).state)).state) :=
  ⟨rfl, rfl,
    by simp only [scoped_upgrade_exit, scoped_upgrade_entry, unique_to_upgrade]; decide,
    by simp only [scoped_upgrade_exit, scoped_upgrade_entry, unique_to_upgrade]; decide⟩

/-- Witness for C8 at the word with only the UPGRADER bit set. -/
theorem C8_witness :
    upgraderOf ((scoped_upgrade_exit ((scoped_upgrade_entry UPGRADE_LOCKED_FLAG).state)).state) ∧
    ¬ writerOf ((scoped_upgrade_exit ((scoped_upgrade_entry UPGRADE_LOCKED_FLAG).state)).state) :=
  have h := C8_scoped_upgrade_alias_and_roundtrip UPGRADE_LOCKED_FLAG
  ⟨h.2.2.1, h.2.2.2⟩

/-- C9: under the holding precondition, each release changes only its own
field — `unlock` subtracts exactly the WRITER bit, `unlock_shared` exactly one
reader, `unlock_upgrade` exactly the UPGRADER bit — and a successful
`lock_shared` adds exactly one reader; all other fields are unchanged. -/
theorem C9_releases_are_frame_exact (s : Nat) (hs : s < 2 ^ 32) :
    (writerOf s →
      (unlock s).state = s - WRITE_LOCKED_FLAG ∧
      ¬ writerOf (unlock s).state ∧
      (upgraderOf (unlock s).state ↔ upgraderOf s) ∧
      (pendingOf (unlock s).state ↔ pendingOf s) ∧
      readersOf (unlock s).state = readersOf s) ∧
    (1 ≤ readersOf s →
      (unlock_shared s).state = s - ONE_READER ∧
      readersOf (unlock_shared s).state = readersOf s - 1 ∧
      (writerOf (unlock_shared s).state ↔ writerOf s) ∧
      (upgraderOf (unlock_shared s).state ↔ upgraderOf s) ∧
      (pendingOf (unlock_shared s).state ↔ pendingOf s)) ∧
    (upgraderOf s →
      (unlock_upgrade s).state = s - UPGRADE_LOCKED_FLAG ∧
      ¬ upgraderOf (unlock_upgrade s).state ∧
      (writerOf (unlock_upgrade s).state ↔ writerOf s) ∧
      (pendingOf (unlock_upgrade s).state ↔ pendingOf s) ∧
      readersOf (unlock_upgrade s).state = readersOf s) ∧
    (lock_shared_pred s = true → readersOf s < 2 ^ 29 - 1 →
      readersOf (lock_shared_newState s) = readersOf s + 1 ∧
      (writerOf (lock_shared_newState s) ↔ writerOf s) ∧
      (upgraderOf (lock_shared_newState s) ↔ upgraderOf s) ∧
      (pendingOf (lock_shared_newState s) ↔ pendingOf s)) := by
  refine ⟨?_, ?_, ?_, ?_⟩
  · intro h
    unfold writerOf at h
    unfold writerOf upgraderOf pendingOf readersOf
    simp only [unlock, wsub, WRITE_LOCKED_FLAG_eq]
    omega
  · intro h
    unfold readersOf at h
    unfold writerOf upgraderOf pendingOf readersOf
    simp only [unlock_shared, wsub, ONE_READER]
    omega
  · intro h
    unfold upgraderOf at h
    unfold writerOf upgraderOf pendingOf readersOf
    simp only [unlock_upgrade, wsub, UPGRADE_LOCKED_FLAG_eq]
    omega
  · intro h hceil
    unfold lock_shared_pred at h
    rw [WRITE_LOCKED_FLAG_eq, UPGRADE_PENDING_FLAG_eq,
      land_two_pow_div_mod, land_two_pow_div_mod] at h
    simp only [Bool.and_eq_true, beq_iff_eq] at h
    unfold readersOf at hceil
    unfold writerOf upgraderOf pendingOf readersOf
    simp only [lock_shared_newState, ONE_READER]
    omega

/-- Witness for C9: the writer's release at the WRITER-only word, a reader's
release with five readers, and a successful shared acquisition under an
upgrader. -/
theorem C9_witness :
    (unlock WRITE_LOCKED_FLAG).state = WRITE_LOCKED_FLAG - WRITE_LOCKED_FLAG ∧
    readersOf (unlock_shared 5).state = readersOf 5 - 1 ∧
    readersOf (lock_shared_newState (UPGRADE_LOCKED_FLAG + 2))
      = readersOf (UPGRADE_LOCKED_FLAG + 2) + 1 :=
  ⟨((C9_releases_are_frame_exact WRITE_LOCKED_FLAG (by decide)).1 (by decide)).1,
   ((C9_releases_are_frame_exact 5 (by decide)).2.1 (by decide)).2.1,
   ((C9_releases_are_frame_exact (UPGRADE_LOCKED_FLAG + 2) (by decide)).2.2.2
      (by decide) (by decide)).1⟩

/-- C10: a guard holding no mutex — default-constructed, moved-from, or
released — invokes no operation on any mutex when destroyed and reports
`owns_lock() = false`; a `scoped_upgrade` built from an upgrade lock with a
null mutex pointer performs no upgrade on entry and no downgrade on exit. -/
theorem C10_empty_guards_invoke_nothing (g : lock_guard_base) :
    (unique_lock_dtor default_guard = [] ∧
      shared_lock_dtor default_guard = [] ∧
      upgrade_lock_dtor default_guard = [] ∧
      owns_lock default_guard = false) ∧
    (unique_lock_dtor (release_guard g) = [] ∧
      shared_lock_dtor (release_guard g) = [] ∧
      upgrade_lock_dtor (release_guard g) = [] ∧
      owns_lock (release_guard g) = false) ∧
    (unique_lock_dtor (move_construct g).2 = [] ∧
      shared_lock_dtor (move_construct g).2 = [] ∧
      upgrade_lock_dtor (move_construct g).2 = [] ∧
      owns_lock (move_construct g).2 = false) ∧
    (scoped_upgrade_ctor_ops default_guard = [] ∧
      scoped_upgrade_dtor_ops default_guard = []) :=
  ⟨⟨rfl, rfl, rfl, rfl⟩, ⟨rfl, rfl, rfl, rfl⟩, ⟨rfl, rfl, rfl, rfl⟩, rfl, rfl⟩

/-- Witness for C10 at a guard that held mutex 0 and was then released. -/
theorem C10_witness :
    unique_lock_dtor (release_guard { p_mutex_ := some 0 }) = [] ∧
    owns_lock (move_construct { p_mutex_ := some 0 }).2 = false :=
  have h := C10_empty_guards_invoke_nothing { p_mutex_ := some 0 }
  ⟨h.2.1.1, h.2.2.1.2.2.2⟩

end upgrade_mutex
